import Mathlib

/-!
Verification of `thread_utils::BlockingQueue<T>` and `thread_utils::BlockingSlot<T>`
from `src/blocking_queue.h`.

Embedding notes.
All mutating sections of the C++ code run under the instance mutex, and the only
blocking points (`pop`, `get`) wait on a semaphore *before* taking the lock, so a
whole operation is modelled as one atomic state transition.  Waits are resolved
against the state of the semaphore at the call, which models a quiescent
execution: no concurrent producer posts while the wait is in progress (the
premise of the timeout claims).  A wait on an unavailable semaphore with an
unbounded timeout never returns; the model reports that as the distinguished
outcome `blocked`.  `mQueue.front()` on an empty `std::deque` is undefined
behaviour in C++; the model reports that path as the distinguished outcome
`frontOfEmpty` instead of inventing a value.

The deque is a Lean list whose head is the deque's front.  Machine integers
(`int64_t timeout_ms`) are modelled as `Int`; no arithmetic in the code can
overflow them, only comparisons with 0 occur.
-/

/-- Modelled from the spec: the repository's `semaphore.h` (included by
`blocking_queue.h` for `semaphore_t`) is not under `src/`.  Section 6 of the
spec gives its contract: a counting semaphore holding a non-negative count;
`post()` increments the available count; `wait()` blocks until the count is
positive, then decrements; `wait_for(timeout_ms)` does the same but returns
`false` without decrementing if the timeout elapses first. -/
structure CountingSemaphore where
  count : Nat
deriving DecidableEq

/-- `post()`: increments the available count. -/
def CountingSemaphore.post (s : CountingSemaphore) : CountingSemaphore :=
  ⟨s.count + 1⟩

/-- `wait_for(timeout_ms)` resolved against the current state (quiescent wait):
succeeds and decrements iff the count is positive, otherwise times out and
returns `false` leaving the count untouched. -/
def CountingSemaphore.wait_for (s : CountingSemaphore) : Bool × CountingSemaphore :=
  if s.count = 0 then (false, s) else (true, ⟨s.count - 1⟩)

/-- `wait()` resolved against the current state: returns (with `true`) iff the
count is positive, decrementing it; a `false` result means the caller blocks
forever (the call never returns in a quiescent execution). -/
def CountingSemaphore.wait (s : CountingSemaphore) : Bool × CountingSemaphore :=
  if s.count = 0 then (false, s) else (true, ⟨s.count - 1⟩)

/-- Modelled from the spec: the repository's `semaphore.h` (for
`binary_semaphore_t`) is not under `src/`.  Section 6 of the spec: same three
operations but the available state saturates at "signaled"; `post()` returns
whether it transitioned unsignaled→signaled. -/
structure BinarySemaphore where
  signaled : Bool
deriving DecidableEq

/-- `post()`: sets the signaled state; returns whether this call transitioned
it from unsignaled to signaled. -/
def BinarySemaphore.post (s : BinarySemaphore) : Bool × BinarySemaphore :=
  (!s.signaled, ⟨true⟩)

/-- `wait_for(timeout_ms)` resolved against the current state: succeeds and
clears the signal iff signaled, otherwise times out returning `false`. -/
def BinarySemaphore.wait_for (s : BinarySemaphore) : Bool × BinarySemaphore :=
  if s.signaled then (true, ⟨false⟩) else (false, s)

/-- `wait()` resolved against the current state: a `false` result means the
caller blocks forever. -/
def BinarySemaphore.wait (s : BinarySemaphore) : Bool × BinarySemaphore :=
  if s.signaled then (true, ⟨false⟩) else (false, s)

namespace thread_utils

/-- State of `thread_utils::BlockingQueue<T>`: the protected `std::deque<T>`
(`mQueue`, head of the list = front of the deque) and the counting semaphore
(`mQueueSemaphore`).  The mutex has no state-level content in the atomic model. -/
structure BlockingQueue (T : Type) where
  mQueue : List T
  mQueueSemaphore : CountingSemaphore
deriving DecidableEq

/-- The default-constructed queue: empty deque, semaphore count 0. -/
def BlockingQueue.init (T : Type) : BlockingQueue T :=
  { mQueue := [], mQueueSemaphore := ⟨0⟩ }

/-- `push(element, front)`: under the lock, `push_front` if `front` else
`push_back`, then `mQueueSemaphore.post()`. -/
def BlockingQueue.push {T : Type} (q : BlockingQueue T) (element : T) (front : Bool) :
    BlockingQueue T :=
  { mQueue := if front then element :: q.mQueue else q.mQueue ++ [element],
    mQueueSemaphore := q.mQueueSemaphore.post }

/-- `emplace(element)`: under the lock, inserts the element, then posts.
The source line is `mQueue.emplace(element)`, which is ill-formed for
`std::deque` (its `emplace` needs a position iterator) and passes `element`
as an lvalue; the insertion is modelled from the spec and the function's own
documentation ("Moves the given value!", back insertion): one element appended
at the back. -/
def BlockingQueue.emplace {T : Type} (q : BlockingQueue T) (element : T) :
    BlockingQueue T :=
  { mQueue := q.mQueue ++ [element],
    mQueueSemaphore := q.mQueueSemaphore.post }

/-- Outcome of a `pop` call.  `timeout` is the `std::nullopt` return from the
failed `wait_for`; `blocked` marks an indefinite `wait()` that never returns;
`frontOfEmpty` marks the undefined behaviour of `mQueue.front()` on an empty
deque; `popped v` is a normal return of value `v`. -/
inductive PopResult (T : Type) where
  | timeout
  | blocked
  | frontOfEmpty
  | popped (v : T)
deriving DecidableEq

/-- The locked tail of `pop`: take `mQueue.front()` and `pop_front()`.
On an empty deque this is undefined behaviour, reported as `frontOfEmpty`. -/
def BlockingQueue.popLocked {T : Type} (q : BlockingQueue T) :
    PopResult T × BlockingQueue T :=
  match q.mQueue with
  | [] => (.frontOfEmpty, q)
  | v :: rest => (.popped v, { q with mQueue := rest })

/-- `pop(timeout_ms)`: if `timeout_ms > 0`, `wait_for` on the semaphore and
return `std::nullopt` (`timeout`) if it fails; otherwise `wait()` indefinitely.
On a successful wait, lock and remove the front element. -/
def BlockingQueue.pop {T : Type} (q : BlockingQueue T) (timeout_ms : Int) :
    PopResult T × BlockingQueue T :=
  if timeout_ms > 0 then
    match q.mQueueSemaphore.wait_for with
    | (false, s) => (.timeout, { q with mQueueSemaphore := s })
    | (true, s) => BlockingQueue.popLocked { q with mQueueSemaphore := s }
  else
    match q.mQueueSemaphore.wait with
    | (false, s) => (.blocked, { q with mQueueSemaphore := s })
    | (true, s) => BlockingQueue.popLocked { q with mQueueSemaphore := s }

/-- `clear()`: under the lock, `mQueue.clear()`.  The semaphore is untouched. -/
def BlockingQueue.clear {T : Type} (q : BlockingQueue T) : BlockingQueue T :=
  { q with mQueue := [] }

/-- State of `thread_utils::BlockingSlot<T>`: the protected `std::optional<T>`
(`mSlot`) and the binary semaphore (`mSemaphore`). -/
structure BlockingSlot (T : Type) where
  mSlot : Option T
  mSemaphore : BinarySemaphore
deriving DecidableEq

/-- The default-constructed slot: `mSlot = std::nullopt`, semaphore unsignaled. -/
def BlockingSlot.init (T : Type) : BlockingSlot T :=
  { mSlot := none, mSemaphore := ⟨false⟩ }

/-- `set(value)`: under the lock, `mSlot = value` (overwrite), then return
`mSemaphore.post()`. -/
def BlockingSlot.set {T : Type} (sl : BlockingSlot T) (value : T) :
    Bool × BlockingSlot T :=
  match sl.mSemaphore.post with
  | (r, sem) => (r, { mSlot := some value, mSemaphore := sem })

/-- Outcome of a `get` call.  `timeout` is the `std::nullopt` return from the
failed `wait_for`; `blocked` marks an indefinite `wait()` that never returns;
`success o` is a normal return of the slot content `o` (which may itself be
`none` if the slot was cleared). -/
inductive GetResult (T : Type) where
  | timeout
  | blocked
  | success (o : Option T)
deriving DecidableEq

/-- The `std::optional<T>` a caller of `get` receives in each returning
outcome: `std::nullopt` on timeout, the slot content on success. -/
def GetResult.observed {T : Type} : GetResult T → Option T
  | .timeout => none
  | .blocked => none
  | .success o => o

/-- `get(timeout_ms)`: if `timeout_ms < 0`, `wait()` indefinitely; otherwise
`wait_for` and return `std::nullopt` (`timeout`) if it fails.  On a successful
wait, lock and return `mSlot`. -/
def BlockingSlot.get {T : Type} (sl : BlockingSlot T) (timeout_ms : Int) :
    GetResult T × BlockingSlot T :=
  if timeout_ms < 0 then
    match sl.mSemaphore.wait with
    | (false, sem) => (.blocked, { sl with mSemaphore := sem })
    | (true, sem) => (.success sl.mSlot, { sl with mSemaphore := sem })
  else
    match sl.mSemaphore.wait_for with
    | (false, sem) => (.timeout, { sl with mSemaphore := sem })
    | (true, sem) => (.success sl.mSlot, { sl with mSemaphore := sem })

/-- `clear()`: under the lock, `mSlot = std::nullopt`.  The semaphore's
signaled state is untouched. -/
def BlockingSlot.clear {T : Type} (sl : BlockingSlot T) : BlockingSlot T :=
  { sl with mSlot := none }

/-- One operation of a queue history: `push(v, front)`, `emplace(v)`,
`pop(timeout_ms)` or `clear()`. -/
inductive QOp (T : Type) where
  | pushOp (v : T) (front : Bool)
  | emplaceOp (v : T)
  | popOp (timeout_ms : Int)
  | clearOp
deriving DecidableEq

/-- Whether a queue operation is a `clear()`. -/
def QOp.isClear {T : Type} : QOp T → Bool
  | .clearOp => true
  | _ => false

/-- The state transition of one queue operation (a `pop`'s returned value is
dropped, its state effect kept). -/
def queueStep {T : Type} (q : BlockingQueue T) : QOp T → BlockingQueue T
  | .pushOp v front => q.push v front
  | .emplaceOp v => q.emplace v
  | .popOp t => (q.pop t).2
  | .clearOp => q.clear

/-- Run a history of queue operations from the default-constructed queue. -/
def runQueue {T : Type} (ops : List (QOp T)) : BlockingQueue T :=
  List.foldl queueStep (BlockingQueue.init T) ops

/-- One operation of a slot history: `set(v)`, `get(timeout_ms)` or `clear()`. -/
inductive SOp (T : Type) where
  | setOp (v : T)
  | getOp (timeout_ms : Int)
  | clearOp
deriving DecidableEq

/-- Whether a slot operation is a `set`. -/
def SOp.isSet {T : Type} : SOp T → Bool
  | .setOp _ => true
  | _ => false

/-- Whether a slot operation is a `clear()`. -/
def SOp.isClear {T : Type} : SOp T → Bool
  | .clearOp => true
  | _ => false

/-- The state transition of one slot operation (returned values dropped). -/
def slotStep {T : Type} (sl : BlockingSlot T) : SOp T → BlockingSlot T
  | .setOp v => (sl.set v).2
  | .getOp t => (sl.get t).2
  | .clearOp => sl.clear

/-- Run a history of slot operations from the default-constructed slot. -/
def runSlot {T : Type} (ops : List (SOp T)) : BlockingSlot T :=
  List.foldl slotStep (BlockingSlot.init T) ops

/-! ## Helper lemmas -/

/-- Any single queue operation other than `clear()` preserves the accounting
invariant "semaphore count = number of stored elements". -/
theorem queueStep_preserves_inv {T : Type} (q : BlockingQueue T) (op : QOp T)
    (hop : op.isClear = false)
    (h : q.mQueueSemaphore.count = q.mQueue.length) :
    (queueStep q op).mQueueSemaphore.count = (queueStep q op).mQueue.length := by
  cases op with
  | pushOp v front =>
      cases front <;>
        simp [queueStep, BlockingQueue.push, CountingSemaphore.post, h]
  | emplaceOp v =>
      simp [queueStep, BlockingQueue.emplace, CountingSemaphore.post, h]
  | popOp t =>
      obtain ⟨queue, c⟩ := q
      obtain ⟨count⟩ := c
      simp only at h
      cases queue with
      | nil =>
          simp only [List.length_nil] at h
          by_cases ht : t > 0 <;>
            simp [queueStep, BlockingQueue.pop, CountingSemaphore.wait_for,
              CountingSemaphore.wait, BlockingQueue.popLocked, h, ht]
      | cons v rest =>
          simp only [List.length_cons] at h
          by_cases ht : t > 0 <;>
            simp [queueStep, BlockingQueue.pop, CountingSemaphore.wait_for,
              CountingSemaphore.wait, BlockingQueue.popLocked, h, ht]
  | clearOp => simp [QOp.isClear] at hop

/-- The accounting invariant is preserved along any clear-free history. -/
theorem foldl_queueStep_inv {T : Type} (ops : List (QOp T)) :
    ∀ q : BlockingQueue T, (∀ op ∈ ops, op.isClear = false) →
      q.mQueueSemaphore.count = q.mQueue.length →
      (List.foldl queueStep q ops).mQueueSemaphore.count =
        (List.foldl queueStep q ops).mQueue.length := by
  induction ops with
  | nil => intro q _ h; simpa using h
  | cons op rest ih =>
      intro q hops h
      simp only [List.foldl_cons]
      exact ih (queueStep q op)
        (fun o ho => hops o (List.mem_cons_of_mem op ho))
        (queueStep_preserves_inv q op (hops op (List.mem_cons_self op rest)) h)

/-- A `get` that returns through the success path hands back exactly the
current content of `mSlot`. -/
theorem get_success_eq {T : Type} (sl sl₂ : BlockingSlot T) (t : Int) (r : Option T)
    (hget : sl.get t = (.success r, sl₂)) : r = sl.mSlot := by
  unfold BlockingSlot.get BinarySemaphore.wait BinarySemaphore.wait_for at hget
  by_cases ht : t < 0 <;> cases hs : sl.mSemaphore.signaled <;>
    simp [ht, hs] at hget <;> exact hget.1.symm

/-- Along a set-free history, the slot content ends empty if the history
contains a `clear()`, and is otherwise untouched. -/
theorem foldl_slotStep_mSlot {T : Type} (ops : List (SOp T)) :
    ∀ sl : BlockingSlot T, (∀ op ∈ ops, op.isSet = false) →
      (List.foldl slotStep sl ops).mSlot =
        (if ops.any SOp.isClear then none else sl.mSlot) := by
  induction ops with
  | nil => intro sl _; simp
  | cons op rest ih =>
      intro sl hops
      have hrest : ∀ op ∈ rest, op.isSet = false :=
        fun o ho => hops o (List.mem_cons_of_mem op ho)
      cases op with
      | setOp v => simp [SOp.isSet] at hops
      | getOp t =>
          have hstep : (slotStep sl (.getOp t)).mSlot = sl.mSlot := by
            unfold slotStep BlockingSlot.get BinarySemaphore.wait
              BinarySemaphore.wait_for
            by_cases ht : t < 0 <;> cases hs : sl.mSemaphore.signaled <;>
              simp [ht, hs]
          simp only [List.foldl_cons, List.any_cons, ih _ hrest, hstep]
          simp [SOp.isClear]
      | clearOp =>
          simp only [List.foldl_cons, List.any_cons, ih _ hrest]
          simp [SOp.isClear, slotStep, BlockingSlot.clear]

/-! ## Claim theorems -/

/-- C1: the claim fails on the code.  In the execution push(1); clear(), the
semaphore count is 1 (so a pop's wait succeeds) while the deque is empty, and
pop then takes the front of an empty deque (`frontOfEmpty`, undefined
behaviour in C++) instead of finding a non-empty sequence — with either a
bounded or an unbounded wait. -/
theorem pop_wait_success_on_empty_queue_after_clear :
    (runQueue [QOp.pushOp (1 : Nat) false, QOp.clearOp]).mQueueSemaphore.count = 1 ∧
    (runQueue [QOp.pushOp (1 : Nat) false, QOp.clearOp]).mQueue = [] ∧
    ((runQueue [QOp.pushOp (1 : Nat) false, QOp.clearOp]).pop 5).1 =
      PopResult.frontOfEmpty ∧
    ((runQueue [QOp.pushOp (1 : Nat) false, QOp.clearOp]).pop (-1)).1 =
      PopResult.frontOfEmpty := by
  decide

/-- C2: along any history of push, emplace and pop operations that contains no
clear(), the counting semaphore's available count equals the number of elements
stored in the deque: each push/emplace appends one element and posts once, and
each successful pop consumes one signal and removes one element. -/
theorem semaphore_count_eq_queue_length {T : Type} (ops : List (QOp T))
    (hops : ∀ op ∈ ops, op.isClear = false) :
    (runQueue ops).mQueueSemaphore.count = (runQueue ops).mQueue.length :=
  foldl_queueStep_inv ops (BlockingQueue.init T) hops rfl

/-- Witness for C2 at the concrete clear-free history
push(1); emplace(2); pop(5); push(3, front). -/
theorem semaphore_count_eq_queue_length_witness :
    (runQueue [QOp.pushOp (1 : Nat) false, QOp.emplaceOp 2, QOp.popOp 5,
        QOp.pushOp 3 true]).mQueueSemaphore.count =
      (runQueue [QOp.pushOp (1 : Nat) false, QOp.emplaceOp 2, QOp.popOp 5,
        QOp.pushOp 3 true]).mQueue.length :=
  semaphore_count_eq_queue_length
    [QOp.pushOp 1 false, QOp.emplaceOp 2, QOp.popOp 5, QOp.pushOp 3 true]
    (by decide)

/-- C3: the claim fails on the code.  After push(1); clear(), a pop with a
short positive timeout does not return "no value": its `wait_for` succeeds
immediately (the semaphore still holds the signal clear() never drained), and
pop proceeds to take the front of the now-empty deque (undefined behaviour),
never reaching the timeout return. -/
theorem pop_after_clear_is_not_timeout :
    ((runQueue [QOp.pushOp (1 : Nat) false, QOp.clearOp]).pop 10).1 ≠
      PopResult.timeout ∧
    ((runQueue [QOp.pushOp (1 : Nat) false, QOp.clearOp]).pop 10).1 =
      PopResult.frontOfEmpty := by
  decide

/-- C4: from the empty queue, push(1); push(2); push(3, front=true) leaves the
deque as [3, 1, 2], and three pops yield 3, 1, 2 in that order; in general
push inserts at the back by default and at the front when front=true, and a
pop whose wait succeeds removes and returns the front element. -/
theorem push_front_pop_order :
    (runQueue [QOp.pushOp (1 : Nat) false, QOp.pushOp 2 false,
        QOp.pushOp 3 true]).mQueue = [3, 1, 2] ∧
    ((runQueue [QOp.pushOp (1 : Nat) false, QOp.pushOp 2 false,
        QOp.pushOp 3 true]).pop (-1)).1 = PopResult.popped 3 ∧
    (((runQueue [QOp.pushOp (1 : Nat) false, QOp.pushOp 2 false,
        QOp.pushOp 3 true]).pop (-1)).2.pop (-1)).1 = PopResult.popped 1 ∧
    ((((runQueue [QOp.pushOp (1 : Nat) false, QOp.pushOp 2 false,
        QOp.pushOp 3 true]).pop (-1)).2.pop (-1)).2.pop (-1)).1 =
      PopResult.popped 2 ∧
    (∀ (q : BlockingQueue Nat) (v : Nat),
      (q.push v false).mQueue = q.mQueue ++ [v] ∧
      (q.push v true).mQueue = v :: q.mQueue) ∧
    (∀ (v : Nat) (rest : List Nat) (n : Nat) (t : Int),
      (BlockingQueue.mk (v :: rest) ⟨n + 1⟩ : BlockingQueue Nat).pop t =
        (PopResult.popped v, BlockingQueue.mk rest ⟨n⟩)) := by
  refine ⟨by decide, by decide, by decide, by decide, ?_, ?_⟩
  · intro q v
    exact ⟨by simp [BlockingQueue.push], by simp [BlockingQueue.push]⟩
  · intro v rest n t
    by_cases ht : t > 0 <;>
      simp [BlockingQueue.pop, CountingSemaphore.wait_for,
        CountingSemaphore.wait, BlockingQueue.popLocked, ht]

/-- C5: on a queue whose semaphore is unavailable and stays unavailable
(count 0, quiescent wait), pop with timeout_ms > 0 returns the timeout result
with the state — deque and semaphore — exactly unchanged, and pop with
timeout_ms ≤ 0 waits indefinitely (the `blocked` outcome: the call never
returns, so in particular it never returns an empty optional). -/
theorem pop_timeout_semantics {T : Type} (q : BlockingQueue T) (t : Int)
    (h : q.mQueueSemaphore.count = 0) :
    (t > 0 → q.pop t = (PopResult.timeout, q)) ∧
    (t ≤ 0 → q.pop t = (PopResult.blocked, q)) := by
  obtain ⟨queue, c⟩ := q
  obtain ⟨count⟩ := c
  simp only at h
  subst h
  constructor <;> intro ht <;>
    simp [BlockingQueue.pop, CountingSemaphore.wait_for,
      CountingSemaphore.wait, ht]

/-- Witness for C5 on the empty queue with timeouts 5 and -1. -/
theorem pop_timeout_semantics_witness :
    (BlockingQueue.init Nat).pop 5 = (PopResult.timeout, BlockingQueue.init Nat) ∧
    (BlockingQueue.init Nat).pop (-1) =
      (PopResult.blocked, BlockingQueue.init Nat) :=
  ⟨(pop_timeout_semantics (BlockingQueue.init Nat) 5 rfl).1 (by decide),
   (pop_timeout_semantics (BlockingQueue.init Nat) (-1) rfl).2 (by decide)⟩

/-- C6: the state-level effect of emplace as documented — exactly one element
equal to the argument appended at the back, then exactly one post.  (The
move-construction part of the claim fails on the source: see the results
entry; this theorem records the intended value-level behaviour the model
assigns to the ill-formed `mQueue.emplace(element)` call.) -/
theorem emplace_appends_and_posts_once {T : Type} (q : BlockingQueue T) (v : T) :
    (q.emplace v).mQueue = q.mQueue ++ [v] ∧
    (q.emplace v).mQueueSemaphore.count = q.mQueueSemaphore.count + 1 := by
  exact ⟨rfl, rfl⟩

/-- C7: set(v) stores v, overwriting any previous content, and returns true
exactly when its post transitioned the binary semaphore from unsignaled to
signaled; in particular, on a fresh slot, set(10) returns true and a second
set(20) before any get returns false, leaving 20 stored. -/
theorem set_stores_and_reports_transition :
    (∀ (T : Type) (sl : BlockingSlot T) (v : T),
      (sl.set v).2.mSlot = some v ∧
      (sl.set v).2.mSemaphore.signaled = true ∧
      ((sl.set v).1 = true ↔ sl.mSemaphore.signaled = false)) ∧
    ((BlockingSlot.init Nat).set 10).1 = true ∧
    (((BlockingSlot.init Nat).set 10).2.set 20).1 = false ∧
    (((BlockingSlot.init Nat).set 10).2.set 20).2.mSlot = some 20 := by
  refine ⟨?_, by decide, by decide, by decide⟩
  intro T sl v
  refine ⟨rfl, rfl, ?_⟩
  cases hs : sl.mSemaphore.signaled <;>
    simp [BlockingSlot.set, BinarySemaphore.post, hs]

/-- C8 counterexample: in the history set(5); clear(), the next get's wait
succeeds (the outcome is the success path, not a timeout and not a block) yet
it returns an empty optional, not the value 5 of the most recent completed
set — even though no later set overwrote that value. -/
theorem get_after_clear_not_last_set :
    ((runSlot [SOp.setOp (5 : Nat), SOp.clearOp]).get (-1)).1 =
      GetResult.success none ∧
    ((runSlot [SOp.setOp (5 : Nat), SOp.clearOp]).get (-1)).1 ≠
      GetResult.success (some 5) ∧
    ((runSlot [SOp.setOp (5 : Nat), SOp.clearOp]).get (-1)).1 ≠
      GetResult.timeout ∧
    ((runSlot [SOp.setOp (5 : Nat), SOp.clearOp]).get (-1)).1 ≠
      GetResult.blocked := by
  decide

/-- C8 amended: a successful get returns the currently stored slot content;
after set(v), when no later operation is a set, that content — hence the value
a successful get returns — is v, unless a clear() emptied the slot, in which
case the get returns an empty optional. -/
theorem get_returns_current_stored_value (pre post : List (SOp Nat)) (v : Nat)
    (t : Int) (r : Option Nat) (sl₂ : BlockingSlot Nat)
    (hpost : ∀ op ∈ post, op.isSet = false)
    (hget : (runSlot (pre ++ SOp.setOp v :: post)).get t = (.success r, sl₂)) :
    r = (runSlot (pre ++ SOp.setOp v :: post)).mSlot ∧
    r = (if post.any SOp.isClear then none else some v) := by
  have hr := get_success_eq _ _ _ _ hget
  refine ⟨hr, ?_⟩
  have hrun : runSlot (pre ++ SOp.setOp v :: post) =
      List.foldl slotStep (slotStep (runSlot pre) (SOp.setOp v)) post := by
    simp [runSlot, List.foldl_append]
  have hset : (slotStep (runSlot pre) (SOp.setOp v)).mSlot = some v := rfl
  rw [hr, hrun, foldl_slotStep_mSlot post _ hpost, hset]

/-- Witness for C8's amended theorem: the history set(10) followed by an
unbounded get, which returns 10. -/
theorem get_returns_current_stored_value_witness :
    some (10 : Nat) = (runSlot ([] ++ SOp.setOp (10 : Nat) :: [])).mSlot ∧
    some (10 : Nat) =
      (if ([] : List (SOp Nat)).any SOp.isClear then none else some 10) :=
  get_returns_current_stored_value [] [] 10 (-1) (some 10)
    ⟨some 10, ⟨false⟩⟩ (by decide) (by decide)

/-- C9: on a slot whose semaphore is unsignaled and stays unsignaled
(quiescent wait), get waits indefinitely (the `blocked` outcome) exactly when
timeout_ms < 0, and for every timeout_ms ≥ 0 — including 0 — it performs a
bounded wait and returns the timeout result with the slot unchanged. -/
theorem get_timeout_semantics {T : Type} (sl : BlockingSlot T) (t : Int)
    (h : sl.mSemaphore.signaled = false) :
    (((sl.get t).1 = GetResult.blocked) ↔ t < 0) ∧
    (0 ≤ t → sl.get t = (GetResult.timeout, sl)) := by
  by_cases ht : t < 0 <;>
    simp [BlockingSlot.get, BinarySemaphore.wait, BinarySemaphore.wait_for,
      h, ht]

/-- Witness for C9 on the fresh slot with timeout 0. -/
theorem get_timeout_semantics_witness :
    (BlockingSlot.init Nat).get 0 = (GetResult.timeout, BlockingSlot.init Nat) :=
  (get_timeout_semantics (BlockingSlot.init Nat) 0 rfl).2 (by decide)

/-- C10: after set(v) directly followed by clear(), a get with any timeout
does not block and does not report a timeout: it consumes the still-pending
binary signal (the semaphore ends unsignaled) and returns an empty optional
because the slot was emptied — and the `std::optional` the caller observes is
the same `std::nullopt` a timeout would produce. -/
theorem get_after_set_clear_consumes_signal {T : Type} (sl : BlockingSlot T)
    (v : T) (t : Int) :
    ((((sl.set v).2.clear).get t).1 = GetResult.success none) ∧
    ((((sl.set v).2.clear).get t).2.mSemaphore.signaled = false) ∧
    (GetResult.observed ((((sl.set v).2.clear).get t).1) =
      GetResult.observed (GetResult.timeout : GetResult T)) := by
  by_cases ht : t < 0 <;>
    simp [BlockingSlot.set, BlockingSlot.clear, BlockingSlot.get,
      BinarySemaphore.post, BinarySemaphore.wait, BinarySemaphore.wait_for,
      GetResult.observed, ht]

end thread_utils
